import Mathlib

/-!
# Upload-and-classify controller (`static/js/classifier.js`)

A shallow embedding of the page controller.  The closure variable `selectedFile`, the
properties of the DOM elements the script writes, and the effects it starts (network
requests, file decodes, timers, console output, scrolling) are gathered in one record,
`Page`; every JavaScript function becomes a function `Page → Page`.

Modelling conventions:
* `classList` is a list of class tokens with the DOM `add` / `remove` behaviour;
* `className`, `textContent`, `innerHTML`, `src`, `value`, `style.width` are strings;
* `file.size` is a natural number;
* JavaScript double arithmetic is not interpreted: the multiplication and the
  number-to-string conversion used by `showResult` are fields of `JsNumber`;
* the `async` function `submitForm` is split at its `await`: `submitForm` is the part
  that runs synchronously in the submit event, `submitFormSettle` the part that runs
  when the request settles.
-/

namespace Classifier

/-! ## Data -/

/-- File object, as far as the controller reads it (`file.type`, `file.size`); the
name tells two files apart. -/
structure File where
  name : String
  type : String
  size : Nat
deriving DecidableEq, Repr

/-- The `fetch` call of `submitForm`: URL, method, the `image` form field and the
`X-CSRFToken` header. -/
structure Request where
  url : String
  method : String
  image : File
  csrfToken : String
deriving DecidableEq, Repr

/-- Callbacks handed to `setTimeout` by `showResult`. -/
inductive Timer where
  | animateBar (width : String) (text : String)
  | scrollToResult
deriving DecidableEq, Repr

/-- JavaScript numbers, left abstract: literal, `*`, and the string conversion of a
template literal. -/
structure JsNumber (ν : Type) where
  ofNat : Nat → ν
  mul : ν → ν → ν
  toStr : ν → String

/-- The `prediction` object of a response. -/
structure Prediction (ν : Type) where
  is_autistic : Bool
  confidence : ν
  confidence_percentage : String
  label : String
  message : String

/-- The object `response.json()` resolves to: `success` (its truthiness), and the
optional members `error` and `prediction`. -/
structure ResponseData (ν : Type) where
  success : Bool
  error : Option String
  prediction : Option (Prediction ν)

/-- How the awaited part of `submitForm` ends: `fetch` rejects, `response.json()`
rejects, or a JSON object arrives. -/
inductive Outcome (ν : Type) where
  | transportFailure
  | unparsable
  | parsed (data : ResponseData ν)

/-- Controller state: `selectedFile`, the DOM properties the script writes, the hidden
CSRF field it reads, and the effects started so far. -/
structure Page where
  selectedFile : Option File
  imageInputValue : String
  previewImageSrc : String
  previewContainer : List String
  dropzoneContent : List String
  dropzone : List String
  submitBtnDisabled : Bool
  btnText : List String
  btnLoading : List String
  resultSection : List String
  resultCard : List String
  resultIcon : String
  resultLabelText : String
  resultLabelClassName : String
  resultMessage : String
  confidenceBarClassName : String
  confidenceBarWidth : String
  confidenceText : String
  errorMessage : String
  errorSection : List String
  csrfField : Option String
  requests : List Request
  inFlight : Nat
  reading : List File
  timers : List (Nat × Timer)
  console : List String
  scrolls : List String
deriving DecidableEq, Repr

/-! ## DOM helpers -/

/-- The method `classList.add(tok)`. -/
def classListAdd (cl : List String) (tok : String) : List String :=
  if tok ∈ cl then cl else cl ++ [tok]

/-- The method `classList.remove(tok₁, tok₂, …)`. -/
def classListRemove (cl : List String) (toks : List String) : List String :=
  cl.filter (fun c => !toks.contains c)

/-- An element is hidden when its class list has `d-none`. -/
def isHidden (cl : List String) : Bool := cl.contains "d-none"

/-- Replace the first occurrence of the character `c` by `r`. -/
def replaceFirst (c r : Char) : List Char → List Char
  | [] => []
  | x :: xs => if x = c then r :: xs else x :: replaceFirst c r xs

/-- The call `s.replace("_", " ")`: a string pattern replaces its first occurrence only. -/
def jsReplaceUnderscore (s : String) : String :=
  ⟨replaceFirst '_' ' ' s.data⟩

/-- The expression `e || dflt` for an optional string member: `undefined` and the empty
string are falsy. -/
def jsOrString (e : Option String) (dflt : String) : String :=
  match e with
  | none => dflt
  | some s => if s = "" then dflt else s

/-! ## Controller functions -/

/-- Source: `showError(message)`. -/
def showError (message : String) (p : Page) : Page :=
  { p with errorMessage := message,
           errorSection := classListRemove p.errorSection ["d-none"] }

/-- Source: `hideError()`. -/
def hideError (p : Page) : Page :=
  { p with errorSection := classListAdd p.errorSection "d-none" }

/-- Source: `showPreview(file)`; starts the decode, whose `onload` runs later. -/
def showPreview (file : File) (p : Page) : Page :=
  { p with reading := p.reading ++ [file] }

/-- The `reader.onload` callback of `showPreview`. -/
def showPreviewOnload (dataUrl : String) (p : Page) : Page :=
  { p with previewImageSrc := dataUrl,
           dropzoneContent := classListAdd p.dropzoneContent "d-none",
           previewContainer := classListRemove p.previewContainer ["d-none"] }

def validTypes : List String := ["image/jpeg", "image/png", "image/jpg"]

/-- Source: `handleFile(file)`. -/
def handleFile (file : File) (p : Page) : Page :=
  if !validTypes.contains file.type then
    showError "Format file tidak didukung. Gunakan JPG atau PNG." p
  else if file.size > 10 * 1024 * 1024 then
    showError "Ukuran file terlalu besar. Maksimum 10MB." p
  else
    let p1 := { p with selectedFile := some file }
    let p2 := showPreview file p1
    let p3 := { p2 with submitBtnDisabled := false }
    hideError p3

/-- Source: `resetUpload()`. -/
def resetUpload (p : Page) : Page :=
  { p with selectedFile := none,
           imageInputValue := "",
           previewImageSrc := "",
           previewContainer := classListAdd p.previewContainer "d-none",
           dropzoneContent := classListRemove p.dropzoneContent ["d-none"],
           submitBtnDisabled := true }

/-- Source: `resetAll()`. -/
def resetAll (p : Page) : Page :=
  let p1 := resetUpload p
  let p2 := { p1 with resultSection := classListAdd p1.resultSection "d-none" }
  hideError p2

/-- Source: `setLoading(isLoading)`. -/
def setLoading (isLoading : Bool) (p : Page) : Page :=
  if isLoading then
    { p with submitBtnDisabled := true,
             btnText := classListAdd p.btnText "d-none",
             btnLoading := classListRemove p.btnLoading ["d-none"] }
  else
    { p with submitBtnDisabled := p.selectedFile.isNone,
             btnText := classListRemove p.btnText ["d-none"],
             btnLoading := classListAdd p.btnLoading "d-none" }

/-- Source: `showResult(prediction)`. -/
def showResult {ν : Type} (num : JsNumber ν) (prediction : Prediction ν) (p : Page) : Page :=
  let isAutistic := prediction.is_autistic
  let confidence := num.mul prediction.confidence (num.ofNat 100)
  let barClass := if isAutistic then "bg-warning" else "bg-success"
  { p with
    resultCard :=
      classListAdd (classListRemove p.resultCard ["autistic", "non-autistic"])
        (if isAutistic then "autistic" else "non-autistic"),
    resultIcon :=
      if isAutistic then
        "<i class=\"bi bi-exclamation-circle-fill text-warning\" style=\"font-size: 5rem;\"></i>"
      else
        "<i class=\"bi bi-check-circle-fill text-success\" style=\"font-size: 5rem;\"></i>",
    resultLabelText := jsReplaceUnderscore prediction.label,
    resultLabelClassName :=
      "fw-bold mb-2 " ++ (if isAutistic then "text-warning" else "text-success"),
    resultMessage := prediction.message,
    confidenceBarClassName := "progress-bar " ++ barClass,
    confidenceBarWidth := "0%",
    timers := p.timers ++
      [(100, Timer.animateBar (num.toStr confidence ++ "%") prediction.confidence_percentage),
       (200, Timer.scrollToResult)],
    resultSection := classListRemove p.resultSection ["d-none"] }

/-- Running a timer callback of `showResult`. -/
def runTimer (t : Timer) (p : Page) : Page :=
  match t with
  | Timer.animateBar width text => { p with confidenceBarWidth := width, confidenceText := text }
  | Timer.scrollToResult => { p with scrolls := p.scrolls ++ ["result-section"] }

/-- The `catch` block of `submitForm`. -/
def submitFormCatch (p : Page) : Page :=
  showError "Terjadi kesalahan koneksi. Silakan coba lagi."
    { p with console := p.console ++ ["Error:"] }

/-- Source: `submitForm()`, up to the `await fetch(...)`.  The CSRF lookup
`document.querySelector("[name=csrfmiddlewaretoken]").value` stands before the `try`:
when the field is absent it throws and the function ends there, with neither `catch`
nor `finally` run. -/
def submitForm (p : Page) : Page :=
  match p.selectedFile with
  | none => showError "Pilih gambar terlebih dahulu." p
  | some file =>
    let p1 := setLoading true p
    let p2 := hideError p1
    let p3 := { p2 with resultSection := classListAdd p2.resultSection "d-none" }
    match p3.csrfField with
    | none => p3
    | some csrfToken =>
      { p3 with requests := p3.requests ++ [⟨"/classify/", "POST", file, csrfToken⟩],
                inFlight := p3.inFlight + 1 }

/-- Source: `submitForm()`, from the point where the awaited request settles: the rest of
the `try` block, the `catch` block on a rejection or an exception, then `finally`.
`showResult(undefined)` throws on reading `prediction.is_autistic`. -/
def submitFormSettle {ν : Type} (num : JsNumber ν) (o : Outcome ν) (p : Page) : Page :=
  let p0 := { p with inFlight := p.inFlight - 1 }
  let p1 :=
    match o with
    | Outcome.transportFailure => submitFormCatch p0
    | Outcome.unparsable => submitFormCatch p0
    | Outcome.parsed data =>
      if data.success then
        match data.prediction with
        | some prediction => showResult num prediction p0
        | none => submitFormCatch p0
      else
        showError (jsOrString data.error "Terjadi kesalahan saat memproses gambar.") p0
  setLoading false p1

/-! ## Event handlers and runs -/

/-- Events of the page: the listeners registered by the script, and the completions
of the asynchronous work it started.  Clicks that only open the file picker change
nothing the script keeps and are left out; `change` carries the input value the browser
has set. -/
inductive Event (ν : Type) where
  | dragover
  | dragleave
  | drop (files : List File)
  | change (value : String) (files : List File)
  | removeClick
  | submit
  | newAnalysisClick
  | settle (o : Outcome ν)
  | readerLoad (dataUrl : String)
  | timerFire

/-- One event.  `none` when the event cannot occur: the browser sends no `submit` from a
disabled submit button, and a completion needs pending work.  Pending decodes and timers
complete in the order they were started. -/
def step {ν : Type} (num : JsNumber ν) (e : Event ν) (p : Page) : Option Page :=
  match e with
  | Event.dragover => some { p with dropzone := classListAdd p.dropzone "dragover" }
  | Event.dragleave => some { p with dropzone := classListRemove p.dropzone ["dragover"] }
  | Event.drop files =>
    let p1 := { p with dropzone := classListRemove p.dropzone ["dragover"] }
    match files with
    | [] => some p1
    | file :: _ => some (handleFile file p1)
  | Event.change value files =>
    let p1 := { p with imageInputValue := value }
    match files with
    | [] => some p1
    | file :: _ => some (handleFile file p1)
  | Event.removeClick => some (resetUpload p)
  | Event.submit => if p.submitBtnDisabled then none else some (submitForm p)
  | Event.newAnalysisClick =>
    let p1 := resetAll p
    some { p1 with scrolls := p1.scrolls ++ ["upload-section"] }
  | Event.settle o => if p.inFlight = 0 then none else some (submitFormSettle num o p)
  | Event.readerLoad dataUrl =>
    match p.reading with
    | [] => none
    | _ :: rest => some (showPreviewOnload dataUrl { p with reading := rest })
  | Event.timerFire =>
    match p.timers with
    | [] => none
    | (_, t) :: rest => some (runTimer t { p with timers := rest })

/-- A sequence of events, from left to right. -/
def run {ν : Type} (num : JsNumber ν) : List (Event ν) → Page → Option Page
  | [], p => some p
  | e :: es, p => (step num e p).bind (run num es)

/-- Modelled from the spec: the page markup is not among the sources.  The page as
loaded: no Selected Image, submit disabled, nothing in flight, preview, loading
indicator, result and error regions hidden; `csrf` is the hidden form field. -/
def initialPage (csrf : Option String) : Page :=
  { selectedFile := none
    imageInputValue := ""
    previewImageSrc := ""
    previewContainer := ["d-none"]
    dropzoneContent := []
    dropzone := []
    submitBtnDisabled := true
    btnText := []
    btnLoading := ["d-none"]
    resultSection := ["d-none"]
    resultCard := []
    resultIcon := ""
    resultLabelText := ""
    resultLabelClassName := ""
    resultMessage := ""
    confidenceBarClassName := ""
    confidenceBarWidth := ""
    confidenceText := ""
    errorMessage := ""
    errorSection := ["d-none"]
    csrfField := csrf
    requests := []
    inFlight := 0
    reading := []
    timers := []
    console := []
    scrolls := [] }

/-- A number implementation for concrete runs: natural numbers with their decimal
rendering. -/
def natNumber : JsNumber Nat :=
  { ofNat := id, mul := (· * ·), toStr := toString }

/-- What the controller does maintain when the CSRF field is present: an enabled submit
control means a Selected Image is held, and a held image with a disabled control means a
submission is in flight. -/
def SubmitInv (p : Page) : Prop :=
  (p.submitBtnDisabled = false → p.selectedFile.isSome = true) ∧
  (p.selectedFile.isSome = true → p.submitBtnDisabled = true → 0 < p.inFlight) ∧
  p.csrfField.isSome = true

/-! ## Sample inputs -/

def pngFile : File := { name := "face.png", type := "image/png", size := 10485760 }

def jpegFile : File := { name := "other.jpg", type := "image/jpeg", size := 2048 }

def hugePng : File := { name := "huge.png", type := "image/png", size := 10485761 }

def hugePdf : File := { name := "scan.pdf", type := "application/pdf", size := 20971520 }

/-- A page holding an earlier selection, with an error banner showing. -/
def busyPage : Page :=
  showError "Pilih gambar terlebih dahulu." (handleFile jpegFile (initialPage (some "tok")))

/-- The page after `pngFile` was chosen and submitted: one request awaits its response. -/
def waitingPage : Page :=
  submitForm (handleFile pngFile (initialPage (some "tok")))

/-- A sample prediction with two underscores in its label. -/
def samplePrediction : Prediction Nat :=
  { is_autistic := true, confidence := 1, confidence_percentage := "93.50%",
    label := "Non_Autistic_Child", message := "Hasil analisis." }

/-- A sample negative prediction. -/
def negativePrediction : Prediction Nat :=
  { is_autistic := false, confidence := 0, confidence_percentage := "12.25%",
    label := "Non_Autistic", message := "Tidak terdeteksi." }

/-! ## DOM helper lemmas -/

theorem mem_classListAdd_iff (cl : List String) (tok x : String) :
    x ∈ classListAdd cl tok ↔ x ∈ cl ∨ x = tok := by
  unfold classListAdd
  split
  · constructor
    · intro h; exact Or.inl h
    · rintro (h | h)
      · exact h
      · subst h; assumption
  · simp

theorem mem_classListRemove_iff (cl toks : List String) (x : String) :
    x ∈ classListRemove cl toks ↔ x ∈ cl ∧ x ∉ toks := by
  simp [classListRemove]

theorem isHidden_classListAdd (cl : List String) :
    isHidden (classListAdd cl "d-none") = true := by
  simp [isHidden, mem_classListAdd_iff]

theorem isHidden_classListRemove (cl : List String) :
    isHidden (classListRemove cl ["d-none"]) = false := by
  simp [isHidden, mem_classListRemove_iff]

theorem classListAdd_of_mem (cl : List String) (tok : String) (h : tok ∈ cl) :
    classListAdd cl tok = cl := by
  simp [classListAdd, h]

theorem classListAdd_idem (cl : List String) (tok : String) :
    classListAdd (classListAdd cl tok) tok = classListAdd cl tok :=
  classListAdd_of_mem _ _ ((mem_classListAdd_iff cl tok tok).2 (Or.inr rfl))

theorem classListRemove_idem (cl toks : List String) :
    classListRemove (classListRemove cl toks) toks = classListRemove cl toks := by
  simp [classListRemove, List.filter_filter]

/-! ## Validation (`handleFile`) -/

/-- C1: a file of an accepted type and of at most 10,485,760 bytes becomes the Selected
Image, whatever the prior state; the submit control is enabled and the error region is
hidden. -/
theorem handleFile_accepts (file : File) (p : Page)
    (htype : file.type = "image/jpeg" ∨ file.type = "image/png" ∨ file.type = "image/jpg")
    (hsize : file.size ≤ 10485760) :
    (handleFile file p).selectedFile = some file ∧
    (handleFile file p).submitBtnDisabled = false ∧
    isHidden (handleFile file p).errorSection = true := by
  have hs : ¬ (10 * 1024 * 1024 < file.size) := by omega
  rcases htype with h | h | h <;>
    simp [handleFile, validTypes, h, hs, hideError, showPreview, isHidden_classListAdd]

theorem handleFile_accepts_witness :
    (pngFile.type = "image/jpeg" ∨ pngFile.type = "image/png" ∨ pngFile.type = "image/jpg") ∧
    pngFile.size ≤ 10485760 ∧
    ((handleFile pngFile busyPage).selectedFile = some pngFile ∧
     (handleFile pngFile busyPage).submitBtnDisabled = false ∧
     isHidden (handleFile pngFile busyPage).errorSection = true) :=
  ⟨Or.inr (Or.inl rfl), by decide,
   handleFile_accepts pngFile busyPage (Or.inr (Or.inl rfl)) (by decide)⟩

/-- C2: a rejected file leaves the Selected Image and the submit control as they were and
shows the error region: with the "unsupported format" message when the type is not an
accepted one (whatever the size), with the "too large" message when the type is accepted
and the size exceeds 10,485,760 bytes. -/
theorem handleFile_rejects (file : File) (p : Page)
    (hrej : (file.type ≠ "image/jpeg" ∧ file.type ≠ "image/png" ∧ file.type ≠ "image/jpg") ∨
      10485760 < file.size) :
    ((file.type ≠ "image/jpeg" ∧ file.type ≠ "image/png" ∧ file.type ≠ "image/jpg") →
      (handleFile file p).errorMessage = "Format file tidak didukung. Gunakan JPG atau PNG.") ∧
    ((file.type = "image/jpeg" ∨ file.type = "image/png" ∨ file.type = "image/jpg") →
      (handleFile file p).errorMessage = "Ukuran file terlalu besar. Maksimum 10MB.") ∧
    isHidden (handleFile file p).errorSection = false ∧
    (handleFile file p).selectedFile = p.selectedFile ∧
    (handleFile file p).submitBtnDisabled = p.submitBtnDisabled := by
  by_cases hv : file.type = "image/jpeg" ∨ file.type = "image/png" ∨ file.type = "image/jpg"
  · have hs : 10 * 1024 * 1024 < file.size := by
      rcases hrej with h | h
      · rcases hv with hv | hv | hv <;> simp [hv] at h
      · omega
    rcases hv with hv | hv | hv <;>
      simp [handleFile, validTypes, hv, hs, showError, isHidden_classListRemove]
  · have hv2 : file.type ≠ "image/jpeg" ∧ file.type ≠ "image/png" ∧ file.type ≠ "image/jpg" := by
      simpa [not_or] using hv
    obtain ⟨h1, h2, h3⟩ := hv2
    simp [handleFile, validTypes, h1, h2, h3, showError, isHidden_classListRemove]

theorem handleFile_rejects_witness :
    ((hugePdf.type ≠ "image/jpeg" ∧ hugePdf.type ≠ "image/png" ∧ hugePdf.type ≠ "image/jpg") ∧
      10485760 < hugePdf.size ∧
      (handleFile hugePdf busyPage).errorMessage =
        "Format file tidak didukung. Gunakan JPG atau PNG." ∧
      (handleFile hugePdf busyPage).selectedFile = some jpegFile) ∧
    (hugePng.type = "image/png" ∧ 10485760 < hugePng.size ∧
      (handleFile hugePng busyPage).errorMessage = "Ukuran file terlalu besar. Maksimum 10MB." ∧
      (handleFile hugePng busyPage).submitBtnDisabled = false) := by
  have hpdf : hugePdf.type ≠ "image/jpeg" ∧ hugePdf.type ≠ "image/png" ∧
      hugePdf.type ≠ "image/jpg" := by decide
  have hbig : 10485760 < hugePng.size := by decide
  have hsel : busyPage.selectedFile = some jpegFile := by decide
  have hdis : busyPage.submitBtnDisabled = false := by decide
  have a := handleFile_rejects hugePdf busyPage (Or.inl hpdf)
  have b := handleFile_rejects hugePng busyPage (Or.inr hbig)
  exact ⟨⟨hpdf, by decide, a.1 hpdf, a.2.2.2.1.trans hsel⟩,
    ⟨rfl, hbig, b.2.1 (Or.inr (Or.inl rfl)), b.2.2.2.2.trans hdis⟩⟩

/-! ## Submission (`submitForm`) -/

/-- C5: with no Selected Image, `submitForm` issues no request and starts no submission,
shows the error region with "Pilih gambar terlebih dahulu.", and leaves the loading state
(submit control, button text, loading indicator) and the result region as they were. -/
theorem submitForm_without_file (p : Page) (h : p.selectedFile = none) :
    (submitForm p).requests = p.requests ∧
    (submitForm p).inFlight = p.inFlight ∧
    (submitForm p).errorMessage = "Pilih gambar terlebih dahulu." ∧
    isHidden (submitForm p).errorSection = false ∧
    (submitForm p).submitBtnDisabled = p.submitBtnDisabled ∧
    (submitForm p).btnText = p.btnText ∧
    (submitForm p).btnLoading = p.btnLoading ∧
    (submitForm p).resultSection = p.resultSection ∧
    (submitForm p).resultCard = p.resultCard ∧
    (submitForm p).timers = p.timers ∧
    submitForm p = showError "Pilih gambar terlebih dahulu." p := by
  simp [submitForm, h, showError, isHidden_classListRemove]

theorem submitForm_without_file_witness :
    (initialPage (some "tok")).selectedFile = none ∧
    (submitForm (initialPage (some "tok"))).requests = [] ∧
    (submitForm (initialPage (some "tok"))).errorMessage = "Pilih gambar terlebih dahulu." ∧
    isHidden (submitForm (initialPage (some "tok"))).errorSection = false :=
  have h := submitForm_without_file (initialPage (some "tok")) rfl
  ⟨rfl, h.1, h.2.2.1, h.2.2.2.1⟩

/-- Whatever the outcome, the part of `submitForm` that runs when the request settles
ends in `setLoading(false)`: indicator hidden, button text shown, submit control disabled
exactly when no Selected Image is held. -/
theorem submitFormSettle_clears_loading {ν : Type} (num : JsNumber ν) (o : Outcome ν)
    (p : Page) :
    isHidden (submitFormSettle num o p).btnLoading = true ∧
    isHidden (submitFormSettle num o p).btnText = false ∧
    (submitFormSettle num o p).selectedFile = p.selectedFile ∧
    (submitFormSettle num o p).submitBtnDisabled = p.selectedFile.isNone := by
  rcases o with _ | _ | ⟨⟨success, err, pred⟩⟩
  · simp [submitFormSettle, setLoading, submitFormCatch, showError, isHidden_classListAdd,
      isHidden_classListRemove]
  · simp [submitFormSettle, setLoading, submitFormCatch, showError, isHidden_classListAdd,
      isHidden_classListRemove]
  · cases success <;> cases pred <;>
      simp [submitFormSettle, setLoading, submitFormCatch, showError, showResult,
        isHidden_classListAdd, isHidden_classListRemove]

/-- C6, evaluated on a page without the hidden CSRF field: `face.png` is chosen and
submitted; `submitForm` sets the loading state, the CSRF lookup throws before the `try`,
and the run is over with the submit control disabled, the indicator shown, the button text
hidden, the image still selected, no request issued and nothing left to settle. -/
theorem submitForm_loading_stuck_without_csrf :
    ∃ q, run natNumber [Event.change "face.png" [pngFile], Event.submit] (initialPage none)
        = some q ∧
      q.selectedFile = some pngFile ∧
      q.submitBtnDisabled = true ∧
      isHidden q.btnLoading = false ∧
      isHidden q.btnText = true ∧
      q.requests = [] ∧
      q.inFlight = 0 ∧
      step natNumber (Event.settle Outcome.transportFailure) q = none :=
  ⟨_, rfl, rfl, rfl, rfl, rfl, rfl, rfl, rfl⟩

/-- C7, as stated, fails for the empty string: a response `success: false, error: ""`
carries an error field, yet the generic processing-error message is shown. -/
theorem submitFormSettle_empty_error_text :
    (submitFormSettle natNumber (Outcome.parsed ⟨false, some "", none⟩) waitingPage).errorMessage
        = "Terjadi kesalahan saat memproses gambar." ∧
    (submitFormSettle natNumber (Outcome.parsed ⟨false, some "", none⟩) waitingPage).errorMessage
        ≠ "" := by
  decide

/-- C7 (amended): for a parsed response with `success` false the error region is shown with
the server's error text when that text is a non-empty string, and with the generic
processing-error message when the error field is absent or the empty string; nothing of
the result region is written and no timer is started. -/
theorem submitFormSettle_failure {ν : Type} (num : JsNumber ν) (err : Option String)
    (pred : Option (Prediction ν)) (p : Page) :
    isHidden (submitFormSettle num (Outcome.parsed ⟨false, err, pred⟩) p).errorSection = false ∧
    (∀ e, err = some e → e ≠ "" →
      (submitFormSettle num (Outcome.parsed ⟨false, err, pred⟩) p).errorMessage = e) ∧
    (err = none ∨ err = some "" →
      (submitFormSettle num (Outcome.parsed ⟨false, err, pred⟩) p).errorMessage
        = "Terjadi kesalahan saat memproses gambar.") ∧
    (submitFormSettle num (Outcome.parsed ⟨false, err, pred⟩) p).resultSection = p.resultSection ∧
    (submitFormSettle num (Outcome.parsed ⟨false, err, pred⟩) p).resultCard = p.resultCard ∧
    (submitFormSettle num (Outcome.parsed ⟨false, err, pred⟩) p).resultIcon = p.resultIcon ∧
    (submitFormSettle num (Outcome.parsed ⟨false, err, pred⟩) p).resultLabelText
      = p.resultLabelText ∧
    (submitFormSettle num (Outcome.parsed ⟨false, err, pred⟩) p).resultMessage
      = p.resultMessage ∧
    (submitFormSettle num (Outcome.parsed ⟨false, err, pred⟩) p).confidenceBarWidth
      = p.confidenceBarWidth ∧
    (submitFormSettle num (Outcome.parsed ⟨false, err, pred⟩) p).confidenceText
      = p.confidenceText ∧
    (submitFormSettle num (Outcome.parsed ⟨false, err, pred⟩) p).timers = p.timers := by
  refine ⟨?_, ?_, ?_, ?_⟩
  · simp [submitFormSettle, setLoading, showError, isHidden_classListRemove]
  · intro e he hne
    subst he
    simp [submitFormSettle, setLoading, showError, jsOrString, hne]
  · rintro (h | h) <;> subst h <;>
      simp [submitFormSettle, setLoading, showError, jsOrString]
  · simp [submitFormSettle, setLoading, showError]

theorem submitFormSettle_failure_witness :
    (submitFormSettle natNumber (Outcome.parsed ⟨false, some "Model belum siap.", none⟩)
        waitingPage).errorMessage = "Model belum siap." ∧
    (submitFormSettle natNumber (Outcome.parsed ⟨false, none, none⟩)
        waitingPage).errorMessage = "Terjadi kesalahan saat memproses gambar." :=
  ⟨(submitFormSettle_failure natNumber (some "Model belum siap.") none waitingPage).2.1
      "Model belum siap." rfl (by decide),
   (submitFormSettle_failure natNumber none none waitingPage).2.2.1 (Or.inl rfl)⟩

/-! ## Result rendering (`showResult`) -/

theorem length_replaceFirst (c r : Char) (l : List Char) :
    (replaceFirst c r l).length = l.length := by
  induction l with
  | nil => rfl
  | cons x xs ih =>
    unfold replaceFirst
    split <;> simp [ih]

theorem replaceFirst_of_not_mem (c r : Char) (l : List Char) (h : c ∉ l) :
    replaceFirst c r l = l := by
  induction l with
  | nil => rfl
  | cons x xs ih =>
    have hx : x ≠ c := fun e => h (by simp [e])
    have hxs : c ∉ xs := fun e => h (by simp [e])
    simp [replaceFirst, hx, ih hxs]

theorem replaceFirst_append (c r : Char) (pre post : List Char) (h : c ∉ pre) :
    replaceFirst c r (pre ++ c :: post) = pre ++ r :: post := by
  induction pre with
  | nil => simp [replaceFirst]
  | cons x xs ih =>
    have hx : x ≠ c := fun e => h (by simp [e])
    have hxs : c ∉ xs := fun e => h (by simp [e])
    simp [replaceFirst, hx, ih hxs]

theorem count_replaceFirst (c r : Char) (l : List Char) (hr : r ≠ c) :
    (replaceFirst c r l).count c = l.count c - 1 := by
  induction l with
  | nil => rfl
  | cons x xs ih =>
    by_cases hx : x = c
    · subst hx
      simp [replaceFirst, List.count_cons, hr]
    · simp only [replaceFirst, hx, if_false, List.count_cons, ih]
      simp [hx]

/-- C8, as stated, fails for a label with two underscores: only the first one is replaced,
so the displayed label still contains an underscore. -/
theorem showResult_label_keeps_later_underscore :
    (showResult natNumber samplePrediction waitingPage).resultLabelText = "Non Autistic_Child" ∧
    '_' ∈ (showResult natNumber samplePrediction waitingPage).resultLabelText.data := by
  decide

/-- C8 (amended): the displayed label is the label with its first underscore, if any,
replaced by a space; later underscores are kept.  The displayed label has the length of the
original, one underscore fewer, and none at all when the label has at most one; the message
is displayed verbatim. -/
theorem showResult_label {ν : Type} (num : JsNumber ν) (pred : Prediction ν) (p : Page) :
    (∀ pre post : List Char, '_' ∉ pre → pred.label.data = pre ++ '_' :: post →
      (showResult num pred p).resultLabelText.data = pre ++ ' ' :: post) ∧
    ('_' ∉ pred.label.data → (showResult num pred p).resultLabelText = pred.label) ∧
    (showResult num pred p).resultLabelText.length = pred.label.length ∧
    (showResult num pred p).resultLabelText.data.count '_' = pred.label.data.count '_' - 1 ∧
    (pred.label.data.count '_' ≤ 1 → '_' ∉ (showResult num pred p).resultLabelText.data) ∧
    (showResult num pred p).resultMessage = pred.message := by
  have hdata : (showResult num pred p).resultLabelText.data
      = replaceFirst '_' ' ' pred.label.data := rfl
  have hcount := count_replaceFirst '_' ' ' pred.label.data (by decide)
  refine ⟨?_, ?_, ?_, ?_, ?_, rfl⟩
  · intro pre post hpre hsplit
    rw [hdata, hsplit, replaceFirst_append _ _ _ _ hpre]
  · intro h
    apply String.ext
    rw [hdata, replaceFirst_of_not_mem _ _ _ h]
  · show (replaceFirst '_' ' ' pred.label.data).length = pred.label.data.length
    exact length_replaceFirst _ _ _
  · rw [hdata, hcount]
  · intro h hmem
    rw [hdata] at hmem
    have := List.count_pos_iff.2 hmem
    omega

theorem showResult_label_witness :
    (showResult natNumber samplePrediction waitingPage).resultLabelText.data
      = "Non".data ++ ' ' :: "Autistic_Child".data ∧
    (showResult natNumber samplePrediction waitingPage).resultMessage = "Hasil analisis." ∧
    negativePrediction.label.data.count '_' ≤ 1 ∧
    '_' ∉ (showResult natNumber negativePrediction waitingPage).resultLabelText.data :=
  ⟨(showResult_label natNumber samplePrediction waitingPage).1 "Non".data "Autistic_Child".data
      (by decide) rfl,
   (showResult_label natNumber samplePrediction waitingPage).2.2.2.2.2,
   by decide,
   (showResult_label natNumber negativePrediction waitingPage).2.2.2.2.1 (by decide)⟩

/-- C9: after `showResult` the result card carries exactly one theme class, whatever its
prior classes: `autistic` with a `text-warning` label and a `bg-warning` bar when
`is_autistic` is true, `non-autistic` with `text-success` and `bg-success` when it is
false.  The bar width is set to `0%`; the timer scheduled at 100 ms sets it to the product
`confidence * 100` followed by `%` and sets the percentage text to the
`confidence_percentage` string. -/
theorem showResult_theme {ν : Type} (num : JsNumber ν) (pred : Prediction ν) (p : Page) :
    (pred.is_autistic = true →
      "autistic" ∈ (showResult num pred p).resultCard ∧
      "non-autistic" ∉ (showResult num pred p).resultCard ∧
      (showResult num pred p).resultLabelClassName = "fw-bold mb-2 text-warning" ∧
      (showResult num pred p).confidenceBarClassName = "progress-bar bg-warning") ∧
    (pred.is_autistic = false →
      "non-autistic" ∈ (showResult num pred p).resultCard ∧
      "autistic" ∉ (showResult num pred p).resultCard ∧
      (showResult num pred p).resultLabelClassName = "fw-bold mb-2 text-success" ∧
      (showResult num pred p).confidenceBarClassName = "progress-bar bg-success") ∧
    (showResult num pred p).confidenceBarWidth = "0%" ∧
    (showResult num pred p).timers = p.timers ++
      [(100, Timer.animateBar (num.toStr (num.mul pred.confidence (num.ofNat 100)) ++ "%")
          pred.confidence_percentage),
       (200, Timer.scrollToResult)] ∧
    (p.timers = [] →
      ∃ q, step num Event.timerFire (showResult num pred p) = some q ∧
        q.confidenceBarWidth = num.toStr (num.mul pred.confidence (num.ofNat 100)) ++ "%" ∧
        q.confidenceText = pred.confidence_percentage ∧
        q.resultCard = (showResult num pred p).resultCard ∧
        q.resultLabelClassName = (showResult num pred p).resultLabelClassName ∧
        q.confidenceBarClassName = (showResult num pred p).confidenceBarClassName) := by
  refine ⟨?_, ?_, rfl, rfl, ?_⟩
  · intro h
    simp [showResult, h, mem_classListAdd_iff, mem_classListRemove_iff]
  · intro h
    simp [showResult, h, mem_classListAdd_iff, mem_classListRemove_iff]
  · intro h
    simp [step, showResult, h, runTimer]

theorem showResult_theme_witness :
    samplePrediction.is_autistic = true ∧
    "autistic" ∈ (showResult natNumber samplePrediction
        { waitingPage with resultCard := ["card", "non-autistic"] }).resultCard ∧
    "non-autistic" ∉ (showResult natNumber samplePrediction
        { waitingPage with resultCard := ["card", "non-autistic"] }).resultCard ∧
    negativePrediction.is_autistic = false ∧
    "autistic" ∉ (showResult natNumber negativePrediction
        { waitingPage with resultCard := ["card", "autistic"] }).resultCard ∧
    waitingPage.timers = [] ∧
    (∃ q, step natNumber Event.timerFire (showResult natNumber samplePrediction waitingPage)
        = some q ∧
      q.confidenceBarWidth = "100%" ∧ q.confidenceText = "93.50%") :=
  have a := (showResult_theme natNumber samplePrediction
    { waitingPage with resultCard := ["card", "non-autistic"] }).1 rfl
  have b := (showResult_theme natNumber negativePrediction
    { waitingPage with resultCard := ["card", "autistic"] }).2.1 rfl
  have c := (showResult_theme natNumber samplePrediction waitingPage).2.2.2.2 rfl
  ⟨rfl, a.1, a.2.1, rfl, b.2.1, rfl,
    c.elim fun q hq => ⟨q, hq.1, hq.2.1.trans (by decide), hq.2.2.1⟩⟩

/-! ## Reset (`resetUpload`, `resetAll`) -/

/-- C10: from every state `resetAll` leaves no Selected Image, an empty file-input value,
the preview cleared and hidden with the upload prompt shown, the submit control disabled,
the result region and the error region hidden; applying it twice is the same as once. -/
theorem resetAll_clears (p : Page) :
    (resetAll p).selectedFile = none ∧
    (resetAll p).imageInputValue = "" ∧
    (resetAll p).previewImageSrc = "" ∧
    isHidden (resetAll p).previewContainer = true ∧
    isHidden (resetAll p).dropzoneContent = false ∧
    (resetAll p).submitBtnDisabled = true ∧
    isHidden (resetAll p).resultSection = true ∧
    isHidden (resetAll p).errorSection = true ∧
    resetAll (resetAll p) = resetAll p := by
  refine ⟨rfl, rfl, rfl, ?_, ?_, rfl, ?_, ?_, ?_⟩
  · exact isHidden_classListAdd _
  · exact isHidden_classListRemove _
  · exact isHidden_classListAdd _
  · exact isHidden_classListAdd _
  · simp [resetAll, resetUpload, hideError, classListAdd_idem, classListRemove_idem]

/-! ## Runs of the controller -/

theorem handleFile_inv (file : File) (p : Page) (h : SubmitInv p) :
    SubmitInv (handleFile file p) := by
  obtain ⟨h1, h2, h3⟩ := h
  unfold handleFile
  split_ifs <;> simp_all [SubmitInv, showError, hideError, showPreview]

theorem submitForm_inv (p : Page) (h : SubmitInv p) : SubmitInv (submitForm p) := by
  obtain ⟨h1, h2, h3⟩ := h
  obtain ⟨tok, htok⟩ := Option.isSome_iff_exists.1 h3
  unfold submitForm
  cases hsel : p.selectedFile with
  | none => simp_all [SubmitInv, showError]
  | some file => simp_all [SubmitInv, setLoading, hideError]

theorem submitFormSettle_inv {ν : Type} (num : JsNumber ν) (o : Outcome ν) (p : Page)
    (h : SubmitInv p) : SubmitInv (submitFormSettle num o p) := by
  obtain ⟨h1, h2, h3⟩ := h
  have hl := submitFormSettle_clears_loading num o p
  have hc : (submitFormSettle num o p).csrfField = p.csrfField := by
    rcases o with _ | _ | ⟨⟨success, err, pred⟩⟩
    · rfl
    · rfl
    · cases success <;> cases pred <;> rfl
  refine ⟨?_, ?_, ?_⟩
  · intro hd
    rw [hl.2.2.2] at hd
    rw [hl.2.2.1]
    cases hs : p.selectedFile <;> simp_all
  · intro hs hd
    rw [hl.2.2.2] at hd
    rw [hl.2.2.1] at hs
    cases hs2 : p.selectedFile <;> simp_all
  · rw [hc]; exact h3

theorem step_inv {ν : Type} (num : JsNumber ν) (e : Event ν) (p q : Page)
    (h : SubmitInv p) (hstep : step num e p = some q) : SubmitInv q := by
  cases e with
  | dragover =>
    simp only [step, Option.some.injEq] at hstep
    subst hstep; exact h
  | dragleave =>
    simp only [step, Option.some.injEq] at hstep
    subst hstep; exact h
  | drop files =>
    cases files with
    | nil =>
      simp only [step, Option.some.injEq] at hstep
      subst hstep; exact h
    | cons file rest =>
      simp only [step, Option.some.injEq] at hstep
      subst hstep; exact handleFile_inv _ _ h
  | change value files =>
    cases files with
    | nil =>
      simp only [step, Option.some.injEq] at hstep
      subst hstep; exact h
    | cons file rest =>
      simp only [step, Option.some.injEq] at hstep
      subst hstep; exact handleFile_inv _ _ h
  | removeClick =>
    simp only [step, Option.some.injEq] at hstep
    subst hstep
    exact ⟨by simp [resetUpload], by simp [resetUpload], h.2.2⟩
  | submit =>
    simp only [step] at hstep
    split_ifs at hstep
    simp only [Option.some.injEq] at hstep
    subst hstep; exact submitForm_inv _ h
  | newAnalysisClick =>
    simp only [step, Option.some.injEq] at hstep
    subst hstep
    exact ⟨by simp [resetAll, resetUpload, hideError],
      by simp [resetAll, resetUpload, hideError], h.2.2⟩
  | settle o =>
    simp only [step] at hstep
    split_ifs at hstep
    simp only [Option.some.injEq] at hstep
    subst hstep; exact submitFormSettle_inv num o _ h
  | readerLoad dataUrl =>
    cases hr : p.reading with
    | nil => simp [step, hr] at hstep
    | cons f rest =>
      simp only [step, hr, Option.some.injEq] at hstep
      subst hstep; exact h
  | timerFire =>
    cases ht : p.timers with
    | nil => simp [step, ht] at hstep
    | cons t rest =>
      obtain ⟨d, t⟩ := t
      simp only [step, ht, Option.some.injEq] at hstep
      subst hstep
      cases t <;> exact h

theorem run_inv {ν : Type} (num : JsNumber ν) (es : List (Event ν)) (p q : Page)
    (h : SubmitInv p) (hrun : run num es p = some q) : SubmitInv q := by
  induction es generalizing p with
  | nil =>
    simp only [run, Option.some.injEq] at hrun
    subst hrun; exact h
  | cons e es ih =>
    simp only [run] at hrun
    cases hs : step num e p with
    | none => simp [hs] at hrun
    | some r =>
      rw [hs] at hrun
      exact ih r (step_inv num e p r h hs) hrun

/-- On a page with the CSRF field, in every state reached from the initial page: an
enabled submit control implies a Selected Image, and a Selected Image with nothing in
flight implies an enabled submit control. -/
theorem submit_control_partial_invariant {ν : Type} (num : JsNumber ν) (es : List (Event ν))
    (tok : String) (q : Page) (hrun : run num es (initialPage (some tok)) = some q) :
    (q.submitBtnDisabled = false → q.selectedFile ≠ none) ∧
    (q.selectedFile ≠ none → q.inFlight = 0 → q.submitBtnDisabled = false) := by
  have hinit : SubmitInv (initialPage (some tok)) := by
    simp [SubmitInv, initialPage]
  obtain ⟨h1, h2, _⟩ := run_inv num es _ q hinit hrun
  constructor
  · intro hd hn
    have := h1 hd
    simp [hn] at this
  · intro hs h0
    cases hd : q.submitBtnDisabled with
    | false => rfl
    | true =>
      have hsome : q.selectedFile.isSome = true := by
        cases hq : q.selectedFile with
        | none => exact absurd hq hs
        | some f => rfl
      have := h2 hsome hd
      omega

/-- C3, evaluated on the run "choose face.png, submit, drop other.jpg": `handleFile` sets
`submitBtn.disabled = false` while the request for `face.png` is still in flight, so the
reached state has the submit control enabled with a submission in flight. -/
theorem submit_enabled_during_flight :
    ∃ q, run natNumber
        [Event.change "face.png" [pngFile], Event.submit, Event.drop [jpegFile]]
        (initialPage (some "tok")) = some q ∧
      q.selectedFile = some jpegFile ∧
      q.inFlight = 1 ∧
      q.submitBtnDisabled = false ∧
      isHidden q.btnLoading = false ∧
      ¬ (q.submitBtnDisabled = false ↔ (q.selectedFile ≠ none ∧ q.inFlight = 0)) :=
  ⟨_, rfl, rfl, rfl, rfl, rfl, by decide⟩

/-- C4, evaluated on the run "choose face.png, submit, drop other.jpg, submit": the second
submit happens while the submit control is enabled, and the reached state has two
submissions in flight, for two issued requests. -/
theorem two_submissions_in_flight :
    ∃ q, run natNumber
        [Event.change "face.png" [pngFile], Event.submit, Event.drop [jpegFile], Event.submit]
        (initialPage (some "tok")) = some q ∧
      q.inFlight = 2 ∧
      q.requests = [⟨"/classify/", "POST", pngFile, "tok"⟩,
        ⟨"/classify/", "POST", jpegFile, "tok"⟩] :=
  ⟨_, rfl, rfl, rfl⟩

end Classifier
